import Mathlib

/-!
Verification of the session and signaling bridge of the talk-to-cat
voice-relay server (packages/server/src).  Each component the claims
touch is shallowly embedded: pure fragments become Lean functions,
event-driven fragments become step functions over explicit state, and
exceptions become `Except` values or explicit abort flags.  Machine
numbers are modelled as `Int` (sample rates, stats counters) or `Rat`
(JSON numbers and the uniform random draw).
-/

namespace TalkToCat

/-! ## Sample-rate negotiation (index.ts, POST /sessions handler, lines 149-174) -/

/-- Supported sample rates, in the ascending order the source lists them
(`SUPPORTED_SAMPLE_RATES` in index.ts line 155). -/
def SUPPORTED_SAMPLE_RATES : List Int := [8000, 16000, 21050, 24000, 32000, 44100, 48000]

/-- JavaScript `Math.abs` on numbers, restricted to integers. -/
def mathAbs (x : Int) : Int := (x.natAbs : Int)

/-- The source's
`SUPPORTED_SAMPLE_RATES.reduce((prev, curr) => Math.abs(curr - requested) < Math.abs(prev - requested) ? curr : prev)`
(index.ts lines 161-163).  A JavaScript `reduce` with no initial value
starts from the first list element and folds over the rest. -/
def closestSampleRate (requested : Int) : Int :=
  match SUPPORTED_SAMPLE_RATES with
  | [] => 24000
  | h :: t =>
      t.foldl
        (fun prev curr => if mathAbs (curr - requested) < mathAbs (prev - requested) then curr else prev) h

/-- The source's `body.sample_rate || 24000` (index.ts line 152): a
missing body or missing field yields the default, and so does the one
representable falsy number, `0`.  `none` models an absent or unparsable
request body (the handler's `.catch(() => ({}))`) as well as an absent
`sample_rate` field. -/
def requestedSampleRate (body : Option Int) : Int :=
  match body with
  | none => 24000
  | some r => if r = 0 then 24000 else r

/-- The sample rate the POST /sessions handler passes to
`sessionManager.createSession` and echoes back (index.ts lines 156-173):
the requested rate if it is in the supported set, otherwise the closest
supported rate by the `reduce` above.  The registry stores this value
verbatim (spec section 4.1), so this is also the created session's rate. -/
def sessionSampleRate (body : Option Int) : Int :=
  let req := requestedSampleRate body
  if req ∈ SUPPORTED_SAMPLE_RATES then req else closestSampleRate req

/-! ## Data-channel to upstream forwarding (rtc-peer.ts, setupDataChannelHandlers, lines 186-202) -/

/-- An event observable by the bridge's data-channel side: either the
upstream readiness acknowledgment firing (the resolution condition of
`XAIClient.connect()`, relayed through `setReadyHandler`), or a
well-formed message arriving on the data channel.  Malformed frames are
logged and produce no forward (rtc-peer.ts lines 199-201), so they are
omitted. -/
inductive BridgeEvent where
  | ready
  | dcMessage (m : String)
deriving DecidableEq

/-- Bridge state as seen by the `onmessage` handler: whether upstream
readiness has fired, and the sequence of `xaiClient.sendMessage` calls
made so far, each paired with the readiness flag at call time. -/
structure BridgeState where
  isReady : Bool
  sent : List (String × Bool)
deriving DecidableEq

/-- One step of the data-channel handler (rtc-peer.ts lines 186-202):
every parsed message — the `input_audio_buffer.append` branch and the
control branch alike — is passed to `xaiClient.sendMessage`
unconditionally; the readiness event only flips the flag. -/
def bridgeStep (st : BridgeState) : BridgeEvent → BridgeState
  | BridgeEvent.ready => { st with isReady := true }
  | BridgeEvent.dcMessage m => { st with sent := st.sent ++ [(m, st.isReady)] }

/-- Run the bridge from its initial state (readiness not yet fired,
nothing sent) over an arbitrary interleaving of events. -/
def bridgeRun (evs : List BridgeEvent) : BridgeState :=
  evs.foldl bridgeStep ⟨false, []⟩

/-- The data-channel messages occurring in an event sequence, in order. -/
def dcMessages (evs : List BridgeEvent) : List String :=
  evs.filterMap (fun e => match e with | BridgeEvent.dcMessage m => some m | BridgeEvent.ready => none)

/-! ## Upstream to data-channel forwarding (rtc-peer.ts, initializeXAI, lines 212-225) -/

/-- A message arriving from the upstream realtime client: its `type`
tag, whether it carries a `delta` field, and an opaque payload standing
for all remaining fields. -/
structure UpstreamMsg where
  tag : String
  hasDelta : Bool
  payload : String
deriving DecidableEq

/-- Whether the data channel handle is present and open.  `none` models
`this.dataChannel === null`; otherwise the string is its `readyState`. -/
def dcIsOpen : Option String → Bool
  | none => false
  | some st => st = "open"

/-- The upstream `onMessage` handler (rtc-peer.ts lines 212-225): both
the audio-delta branch and the control branch send the message verbatim
over the data channel when it is present and open, and otherwise do
nothing — the handler keeps no buffer, so the returned list of sends is
its entire effect. -/
def forwardUpstreamMessage (dcReadyState : Option String) (m : UpstreamMsg) : List UpstreamMsg :=
  if m.tag = "response.output_audio.delta" ∧ m.hasDelta = true then
    (if dcIsOpen dcReadyState then [m] else [])
  else
    (if dcIsOpen dcReadyState then [m] else [])

/-! ## Peer-bridge close (rtc-peer.ts, close, lines 328-340) -/

/-- The three underlying close operations `RTCPeerManager.close` issues. -/
inductive CloseCall where
  | dc
  | pc
  | xai
deriving DecidableEq

/-- Environment of one `close()` invocation: whether `this.dataChannel`
is non-null, and whether each underlying close throws when invoked. -/
structure CloseEnv where
  dcPresent : Bool
  dcFails : Bool
  pcFails : Bool
  xaiFails : Bool
deriving DecidableEq

/-- Attempt one underlying close, extending the trace of issued calls;
a throw aborts with the trace so far. -/
def closeAttempt (trace : List CloseCall) (c : CloseCall) (fails : Bool) :
    Except (List CloseCall) (List CloseCall) :=
  if fails then Except.error (trace ++ [c]) else Except.ok (trace ++ [c])

/-- `RTCPeerManager.close` (rtc-peer.ts lines 328-340):
`if (this.dataChannel) this.dataChannel.close(); this.pc.close();
this.xaiClient.close();` — three sequential calls with no try/catch, so
an exception from an earlier close propagates and the later calls are
never issued.  Returns the trace of issued calls and whether the method
returned normally. -/
def closeRun (env : CloseEnv) : List CloseCall × Bool :=
  let r : Except (List CloseCall) (List CloseCall) := do
    let t ← if env.dcPresent then closeAttempt [] CloseCall.dc env.dcFails else Except.ok []
    let t ← closeAttempt t CloseCall.pc env.pcFails
    let t ← closeAttempt t CloseCall.xai env.xaiFails
    Except.ok t
  match r with
  | Except.ok t => (t, true)
  | Except.error t => (t, false)

/-! ## Session registry and signaling onOpen (index.ts, lines 246-317) -/

/-- A session record (shared/types.ts). -/
structure Session where
  id : String
  created_at : String
  status : String
  sample_rate : Int
deriving DecidableEq

/-- Modelled from the spec: `session-manager.ts` is not among the
provided sources.  Per spec section 4.1 the Session Registry is an
in-memory table keyed by session id with `get(id) -> Session | not
found`; the table is modelled as an association list. -/
def getSession (sessions : List (String × Session)) (sid : String) : Option Session :=
  (sessions.find? (fun p => p.1 == sid)).map Prod.snd

/-- Modelled from the spec: `updateStatus(id, status)` per spec section
4.1 — rewrites the status of the matching entry and is a no-op when the
id is unknown. -/
def updateSessionStatus (sessions : List (String × Session)) (sid status : String) :
    List (String × Session) :=
  sessions.map (fun p => if p.1 == sid then (p.1, { p.2 with status := status }) else p)

/-- The server's cross-session shared state: the registry table and the
`peerConnections` map of active bridges, modelled by the list of session
ids holding a bridge. -/
structure ServerState where
  sessions : List (String × Session)
  peers : List String
deriving DecidableEq

/-- Outcome of the signaling `onOpen` handler: the new server state, the
close code sent on the signaling socket if it was closed, and whether an
`RTCPeerManager` was constructed. -/
structure OnOpenOutcome where
  state : ServerState
  closeCode : Option Nat
  bridgeCreated : Bool
deriving DecidableEq

/-- Signaling `onOpen` (index.ts lines 246-270): look up the session; if
absent, close the socket with code 1002 ("Session not found") and return
without touching any table; otherwise mark the session active, construct
the peer bridge and register it in `peerConnections`. -/
def signalingOnOpen (st : ServerState) (sid : String) : OnOpenOutcome :=
  match getSession st.sessions sid with
  | none => ⟨st, some 1002, false⟩
  | some _ =>
      ⟨⟨updateSessionStatus st.sessions sid "active", sid :: st.peers.filter (fun x => x != sid)⟩,
        none, true⟩

/-! ## Answer handling without a prior offer (rtc-peer.ts lines 276-283, index.ts lines 319-352) -/

/-- The peer connection's signaling state as far as answer handling is
concerned: `stable` until `createOffer`/`setLocalDescription` has run,
`haveLocalOffer` afterwards. -/
inductive SignalingState where
  | stable
  | haveLocalOffer
deriving DecidableEq

/-- Behavior of the underlying peer-connection library's
`setRemoteDescription` for an answer, at the boundary this core sees
(spec sections 4.3 and glossary): applying an answer requires a local
offer to be in place; without one the call rejects with an invalid-state
error instead of succeeding. -/
def setRemoteAnswer : SignalingState → Except String SignalingState
  | SignalingState.haveLocalOffer => Except.ok SignalingState.stable
  | SignalingState.stable => Except.error "InvalidStateError: no local offer"

/-- `RTCPeerManager.handleAnswer` (rtc-peer.ts lines 276-283): awaits
`pc.setRemoteDescription(answer)` with no guard, so a rejection
propagates to the caller. -/
def handleAnswer (st : SignalingState) : Except String SignalingState :=
  setRemoteAnswer st

/-- Outcome of the signaling `onMessage` "answer" branch: resulting peer
state, whether the `{type: ready}` confirmation was sent, and whether
the catch branch logged an error. -/
structure AnswerOutcome where
  state : SignalingState
  readySent : Bool
  errorLogged : Bool
deriving DecidableEq

/-- Signaling `onMessage`, "answer" branch (index.ts lines 319-352): the
whole branch runs inside try/catch — on success the handler sends
`{type: ready}`; on a rejected `handleAnswer` it logs the error and
returns normally.  Totality of this function is the no-crash property:
the handler always returns an outcome. -/
def onSignalingAnswer (st : SignalingState) : AnswerOutcome :=
  match handleAnswer st with
  | Except.ok st2 => ⟨st2, true, false⟩
  | Except.error _ => ⟨st, false, true⟩

/-- Signaling state of a freshly constructed `RTCPeerManager`, before
any `createOffer` call. -/
def freshPeerState : SignalingState := SignalingState.stable

/-! ## Function-call dispatcher (function-callings.ts, lines 33-74) -/

/-- The `generate_random_number` computation (function-callings.ts line
47): `Math.floor(Math.random() * (max - min + 1)) + min`, with the
uniform draw `r ∈ [0,1)` made explicit.  JSON numbers are modelled as
rationals. -/
def generateRandomNumber (min max r : ℚ) : ℚ :=
  (⌊r * (max - min + 1)⌋ : ℚ) + min

/-- A parsed JSON value, as far as the dispatcher's `typeof` checks
look at it: a number, a string, or anything else (including the
`undefined` produced by destructuring a missing field). -/
inductive JVal where
  | num (q : ℚ)
  | str (s : String)
  | other
deriving DecidableEq

/-- A message the dispatcher emits upstream via `sendMessage`: the
`conversation.item.create` carrying the `function_call_output` (with the
computed number as its textual output), or the `response.create`
trigger. -/
inductive DispatchedMsg where
  | functionCallOutput (call_id : String) (result : ℚ)
  | responseCreate
deriving DecidableEq

/-- `handleFunctionCallArguments` (function-callings.ts lines 33-74).
`parsedArgs` is the result of `JSON.parse(message.arguments)` projected
onto its `min` and `max` fields — `none` when the parse throws.  The
switch recognizes only `generate_random_number`; its default branch
throws "Unknown function name".  Any throw lands in the catch, which
logs and returns before the two `sendMessage` calls.  Returns the
messages sent upstream and whether the catch branch ran. -/
def handleFunctionCallArguments (name call_id : String)
    (parsedArgs : Option (JVal × JVal)) (r : ℚ) : List DispatchedMsg × Bool :=
  if name = "generate_random_number" then
    match parsedArgs with
    | none => ([], true)
    | some (jmin, jmax) =>
        match jmin, jmax with
        | JVal.num mn, JVal.num mx =>
            ([DispatchedMsg.functionCallOutput call_id (generateRandomNumber mn mx r),
              DispatchedMsg.responseCreate], false)
        | _, _ => ([], true)
  else ([], true)

/-- The dispatcher's argument validation (function-callings.ts line 44):
both `min` and `max` must be numbers. -/
def validRandomArgs : Option (JVal × JVal) → Bool
  | some (JVal.num _, JVal.num _) => true
  | _ => false

/-! ## WebRTC statistics (rtc-peer.ts lines 28-35, 128-137, 304-316) -/

/-- The bitrate component of a stats snapshot. -/
structure Bitrate where
  audio_in : Int
  audio_out : Int
deriving DecidableEq

/-- `WebRTCStats` (shared/types.ts). -/
structure WebRTCStats where
  bitrate : Bitrate
  jitter : Int
  packetLoss : Int
  connectionState : String
  iceConnectionState : String
  lastUpdated : String
deriving DecidableEq

/-- The field initializer of `RTCPeerManager.stats` (rtc-peer.ts lines
28-35): all numeric fields zero, both states `"new"`, timestamped at
construction time `t0`. -/
def initialStats (t0 : String) : WebRTCStats :=
  ⟨⟨0, 0⟩, 0, 0, "new", "new", t0⟩

/-- Manager state relevant to statistics: the stats snapshot and the
underlying peer connection's current connection and ICE states. -/
structure MgrState where
  stats : WebRTCStats
  pcConnectionState : String
  pcIceConnectionState : String
deriving DecidableEq

/-- Manager state at construction. -/
def initialMgrState (t0 : String) : MgrState :=
  ⟨initialStats t0, "new", "new"⟩

/-- The events that touch the stats snapshot during the bridge's
lifetime: the two state-change callbacks (rtc-peer.ts lines 128-137) and
a `getStats` poll (lines 304-316).  No other code writes `this.stats`. -/
inductive MgrEvent where
  | connectionStateChange (s : String)
  | iceConnectionStateChange (s : String)
  | statsPoll (now : String)

/-- `RTCPeerManager.getStats` (rtc-peer.ts lines 304-316): refreshes
`connectionState`, `iceConnectionState` and `lastUpdated` from the peer
connection and the clock, then returns the snapshot.  It is total — the
source wraps the body in try/catch and returns `this.stats` on either
path, so no call can throw. -/
def getStats (st : MgrState) (now : String) : WebRTCStats × MgrState :=
  let s2 := { st.stats with
    connectionState := st.pcConnectionState,
    iceConnectionState := st.pcIceConnectionState,
    lastUpdated := now }
  (s2, { st with stats := s2 })

/-- One stats-affecting event. -/
def mgrStep (st : MgrState) : MgrEvent → MgrState
  | MgrEvent.connectionStateChange s =>
      { st with pcConnectionState := s, stats := { st.stats with connectionState := s } }
  | MgrEvent.iceConnectionStateChange s =>
      { st with pcIceConnectionState := s, stats := { st.stats with iceConnectionState := s } }
  | MgrEvent.statsPoll now => (getStats st now).2

/-- Run a bridge's whole stats lifetime from construction. -/
def mgrRun (t0 : String) (evs : List MgrEvent) : MgrState :=
  evs.foldl mgrStep (initialMgrState t0)

/-- The numeric stats fields are all zero. -/
def zeroNumericStats (st : MgrState) : Prop :=
  st.stats.bitrate.audio_in = 0 ∧ st.stats.bitrate.audio_out = 0 ∧
  st.stats.jitter = 0 ∧ st.stats.packetLoss = 0

/-! ## Theorems -/

set_option maxHeartbeats 2000000 in
/-- The `reduce` over the supported rates returns a supported rate of
minimal distance to the request, and among the minimizers the first one
in the (ascending) iteration order, i.e. the smallest. -/
theorem closestSampleRate_spec (r : Int) :
    closestSampleRate r ∈ SUPPORTED_SAMPLE_RATES ∧
    (∀ t ∈ SUPPORTED_SAMPLE_RATES, mathAbs (closestSampleRate r - r) ≤ mathAbs (t - r)) ∧
    (∀ t ∈ SUPPORTED_SAMPLE_RATES, mathAbs (t - r) = mathAbs (closestSampleRate r - r) →
      closestSampleRate r ≤ t) := by
  simp only [closestSampleRate, SUPPORTED_SAMPLE_RATES, List.foldl, List.mem_cons,
    List.not_mem_nil, or_false, forall_eq_or_imp, forall_eq, mathAbs]
  split_ifs <;> omega

/-- C2, counterexample: the requested rate 0 is a numeric rate outside
the supported set, yet session creation does not return the closest
supported value: `0` is JS-falsy, so `body.sample_rate || 24000`
replaces it with the default 24000 instead of snapping it to 8000. -/
theorem C2_sample_rate_counterexample :
    ¬ (∀ req : Int, req ∉ SUPPORTED_SAMPLE_RATES →
        ∀ t ∈ SUPPORTED_SAMPLE_RATES,
          mathAbs (sessionSampleRate (some req) - req) ≤ mathAbs (t - req)) := by
  intro h
  exact absurd (h 0 (by decide) 8000 (by decide)) (by decide)

/-- C2, amended: every supported requested rate is returned exactly, and
every nonzero requested rate outside the supported set is snapped to the
closest supported value, ties resolved toward the first (smallest)
candidate in the ascending iteration order; a requested rate of 0 is
JS-falsy and is replaced by the default 24000 before validation. -/
theorem C2_sample_rate_amended (req : Int) :
    (req ∈ SUPPORTED_SAMPLE_RATES → sessionSampleRate (some req) = req) ∧
    (req ≠ 0 → req ∉ SUPPORTED_SAMPLE_RATES →
      sessionSampleRate (some req) ∈ SUPPORTED_SAMPLE_RATES ∧
      (∀ t ∈ SUPPORTED_SAMPLE_RATES,
        mathAbs (sessionSampleRate (some req) - req) ≤ mathAbs (t - req)) ∧
      (∀ t ∈ SUPPORTED_SAMPLE_RATES,
        mathAbs (t - req) = mathAbs (sessionSampleRate (some req) - req) →
          sessionSampleRate (some req) ≤ t)) := by
  constructor
  · intro hmem
    have hnz : req ≠ 0 := by
      rintro rfl
      revert hmem
      decide
    simp [sessionSampleRate, requestedSampleRate, hnz, hmem]
  · intro hnz hmem
    have hreq : sessionSampleRate (some req) = closestSampleRate req := by
      simp [sessionSampleRate, requestedSampleRate, hnz, hmem]
    rw [hreq]
    exact closestSampleRate_spec req

/-- Witness for C2_sample_rate_amended at the spec's own example,
request 22000 (snapped to 21050). -/
theorem C2_sample_rate_amended_witness :
    sessionSampleRate (some 22000) ∈ SUPPORTED_SAMPLE_RATES ∧
    (∀ t ∈ SUPPORTED_SAMPLE_RATES,
      mathAbs (sessionSampleRate (some 22000) - 22000) ≤ mathAbs (t - 22000)) ∧
    (∀ t ∈ SUPPORTED_SAMPLE_RATES,
      mathAbs (t - 22000) = mathAbs (sessionSampleRate (some 22000) - 22000) →
        sessionSampleRate (some 22000) ≤ t) :=
  (C2_sample_rate_amended 22000).2 (by decide) (by decide)

/-- C9: a missing request body (or missing `sample_rate` field) and the
falsy requested rate 0 both yield the default 24000 — the 0 is not
snapped to the closest supported value 8000. -/
theorem C9_falsy_sample_rate_defaults :
    sessionSampleRate none = 24000 ∧
    sessionSampleRate (some 0) = 24000 ∧
    closestSampleRate 0 = 8000 ∧
    sessionSampleRate (some 0) ≠ 8000 := by decide

/-- Helper: running the bridge from any state appends exactly the
data-channel messages of the event sequence to the send trace. -/
theorem bridgeRun_sent_map (st : BridgeState) (evs : List BridgeEvent) :
    ((evs.foldl bridgeStep st).sent).map Prod.fst =
      st.sent.map Prod.fst ++ dcMessages evs := by
  induction evs generalizing st with
  | nil => simp [dcMessages]
  | cons e t ih =>
      cases e with
      | ready => simpa [dcMessages, bridgeStep] using ih { st with isReady := true }
      | dcMessage m =>
          simp only [List.foldl_cons, bridgeStep, dcMessages, List.filterMap_cons]
          rw [ih]
          simp [dcMessages]

/-- C1, counterexample: in the interleaving where a data-channel message
arrives before the upstream readiness acknowledgment has fired, the
message is still passed to `xaiClient.sendMessage` — the `onmessage`
handler forwards unconditionally, so it is not the case that every
forwarded message was sent after readiness. -/
theorem C1_forward_before_ready_counterexample :
    ¬ (∀ evs : List BridgeEvent, ∀ p ∈ (bridgeRun evs).sent, p.2 = true) := by
  intro h
  exact absurd
    (h [BridgeEvent.dcMessage "input_audio_buffer.append"]
      ("input_audio_buffer.append", false) (by decide))
    (by decide)

/-- C1, amended: for every interleaving of data-channel messages and the
upstream readiness event, every message arriving on the data channel is
forwarded to the Upstream Realtime Client's `sendMessage`, immediately
and in arrival order, regardless of whether `connect()`'s readiness
condition has fired — the bridge applies no readiness gate on this
path. -/
theorem C1_forward_unconditional (evs : List BridgeEvent) :
    ((bridgeRun evs).sent).map Prod.fst = dcMessages evs := by
  simpa using bridgeRun_sent_map ⟨false, []⟩ evs

/-- C3, counterexample: the three underlying closes are not individually
guarded — when the data channel's close throws, neither `pc.close()` nor
`xaiClient.close()` is ever issued, refuting "a failure in one does not
prevent closing the others". -/
theorem C3_close_guarded_counterexample :
    ¬ (∀ env : CloseEnv,
        CloseCall.pc ∈ (closeRun env).1 ∧ CloseCall.xai ∈ (closeRun env).1) := by
  intro h
  exact absurd (h ⟨true, true, false, false⟩).1 (by decide)

/-- C3, amended: when no underlying close throws, `close()` issues the
three closes in the order data channel (when present), peer connection,
Upstream Realtime Client, and returns normally; the closes are not
individually guarded (an exception from an earlier close skips the later
ones), and `close()` keeps no closed flag, so a second call re-issues
the same underlying closes, relying on the handles' own tolerance of
repeated close. -/
theorem C3_close_order_amended (env : CloseEnv)
    (h1 : env.dcFails = false) (h2 : env.pcFails = false) (h3 : env.xaiFails = false) :
    closeRun env =
      ((if env.dcPresent then [CloseCall.dc] else []) ++ [CloseCall.pc, CloseCall.xai], true) := by
  rcases env with ⟨dcPresent, dcFails, pcFails, xaiFails⟩
  simp only at h1 h2 h3
  subst h1 h2 h3
  cases dcPresent <;> rfl

/-- Witness for C3_close_order_amended with the data channel present and
no failing close. -/
theorem C3_close_order_amended_witness :
    closeRun ⟨true, false, false, false⟩ =
      ((if true then [CloseCall.dc] else []) ++ [CloseCall.pc, CloseCall.xai], true) :=
  C3_close_order_amended ⟨true, false, false, false⟩ rfl rfl rfl

/-- C4: every message received from the upstream realtime client is
forwarded verbatim (the identical envelope, and nothing else) to the
data channel exactly when the channel is present with `readyState`
"open", and otherwise produces no send at all — the handler holds no
queue, so a dropped message is never delivered later. -/
theorem C4_upstream_forward (dcReadyState : Option String) (m : UpstreamMsg) :
    forwardUpstreamMessage dcReadyState m =
      (if dcIsOpen dcReadyState then [m] else []) := by
  unfold forwardUpstreamMessage
  split_ifs <;> rfl

/-- C5: a signaling connection opened for a session id absent from the
registry is closed immediately with the "not found" code 1002, no peer
bridge is constructed, and the server state — the session table and the
active-bridge table — is unchanged. -/
theorem C5_unknown_session_rejected (st : ServerState) (sid : String)
    (h : getSession st.sessions sid = none) :
    signalingOnOpen st sid = ⟨st, some 1002, false⟩ := by
  simp [signalingOnOpen, h]

/-- Witness for C5_unknown_session_rejected on an empty registry. -/
theorem C5_unknown_session_rejected_witness :
    signalingOnOpen ⟨[], []⟩ "missing-id" = ⟨⟨[], []⟩, some 1002, false⟩ :=
  C5_unknown_session_rejected ⟨[], []⟩ "missing-id" rfl

/-- C6: receiving an answer for a peer whose `createOffer` was never
invoked makes `handleAnswer` reject; the signaling handler's try/catch
logs the error and returns normally — no `{type: ready}` is sent, the
state is unchanged, and the handler completes (no process crash, by
totality of the embedded handler). -/
theorem C6_answer_without_offer :
    onSignalingAnswer freshPeerState =
      ⟨SignalingState.stable, false, true⟩ := rfl

/-- C7, counterexample: the dispatcher's `typeof` check admits every
JSON number, but for non-integer numeric arguments the result can fall
outside `[min, max]` (and fail to be an integer): with `min = 1/2`,
`max = 3/5` and draw `r = 19/20`, the computation returns `3/2 > 3/5`. -/
theorem C7_range_counterexample :
    ¬ (∀ min max r : ℚ, min ≤ max → 0 ≤ r → r < 1 →
        min ≤ generateRandomNumber min max r ∧ generateRandomNumber min max r ≤ max) := by
  intro h
  have h2 := (h (1/2) (3/5) (19/20) (by norm_num) (by norm_num) (by norm_num)).2
  have hfloor : ⌊(19/20 : ℚ) * (3/5 - 1/2 + 1)⌋ = 1 := by
    rw [show (19/20 : ℚ) * (3/5 - 1/2 + 1) = 209/200 by norm_num, Int.floor_eq_iff]
    norm_num
  have hval : generateRandomNumber (1/2) (3/5) (19/20) = 3/2 := by
    unfold generateRandomNumber
    rw [hfloor]
    norm_num
  rw [hval] at h2
  norm_num at h2

/-- C7, amended: for all integer arguments `min ≤ max` and every value
of the underlying uniform draw in `[0,1)`, `generate_random_number`
returns an integer in `[min, max]` inclusive — in particular with
`min = max = 5` it always returns 5; for non-integer numeric arguments
the result may lie outside the range. -/
theorem C7_integer_range_amended (min max : Int) (r : ℚ) (h1 : min ≤ max)
    (h2 : 0 ≤ r) (h3 : r < 1) :
    ∃ k : Int, generateRandomNumber (min : ℚ) (max : ℚ) r = (k : ℚ) ∧ min ≤ k ∧ k ≤ max := by
  have hpos : (0 : ℚ) < (max : ℚ) - (min : ℚ) + 1 := by
    have : (min : ℚ) ≤ (max : ℚ) := by exact_mod_cast h1
    linarith
  have hfl : 0 ≤ ⌊r * ((max : ℚ) - (min : ℚ) + 1)⌋ :=
    Int.floor_nonneg.mpr (mul_nonneg h2 (le_of_lt hpos))
  have hub : ⌊r * ((max : ℚ) - (min : ℚ) + 1)⌋ < max - min + 1 := by
    apply Int.floor_lt.mpr
    push_cast
    exact mul_lt_of_lt_one_left hpos h3
  refine ⟨⌊r * ((max : ℚ) - (min : ℚ) + 1)⌋ + min, ?_, by omega, by omega⟩
  unfold generateRandomNumber
  push_cast
  ring

/-- Witness for C7_integer_range_amended at `min = max = 5`, draw 1/2:
the returned value is the integer 5. -/
theorem C7_integer_range_amended_witness :
    ∃ k : Int, generateRandomNumber ((5 : Int) : ℚ) ((5 : Int) : ℚ) (1/2) = (k : ℚ) ∧
      (5 : Int) ≤ k ∧ k ≤ (5 : Int) :=
  C7_integer_range_amended 5 5 (1/2) (by norm_num) (by norm_num) (by norm_num)

/-- C8: on an unknown tool name or on arguments whose `min` or `max` is
not a number (or whose JSON does not parse), the dispatcher logs the
failure and returns without sending anything upstream — neither the
`function_call_output` conversation item nor the `response.create`
trigger is emitted. -/
theorem C8_invalid_dispatch (name call_id : String) (args : Option (JVal × JVal)) (r : ℚ)
    (h : name ≠ "generate_random_number" ∨ validRandomArgs args = false) :
    handleFunctionCallArguments name call_id args r = ([], true) := by
  unfold handleFunctionCallArguments
  rcases h with h | h
  · rw [if_neg h]
  · by_cases hn : name = "generate_random_number"
    · rw [if_pos hn]
      rcases args with _ | ⟨j1, j2⟩
      · rfl
      · cases j1 <;> cases j2 <;> first | rfl | (exfalso; simp [validRandomArgs] at h)
    · rw [if_neg hn]

/-- Witness for C8_invalid_dispatch at the spec's example:
`generate_random_number(min="a", max=3)` emits nothing and logs. -/
theorem C8_invalid_dispatch_witness :
    handleFunctionCallArguments "generate_random_number" "call-1"
      (some (JVal.str "a", JVal.num 3)) (1/2) = ([], true) :=
  C8_invalid_dispatch "generate_random_number" "call-1"
    (some (JVal.str "a", JVal.num 3)) (1/2) (Or.inr rfl)

/-- Helper: one stats-affecting event preserves all-zero numeric
fields. -/
theorem mgrStep_zero (st : MgrState) (e : MgrEvent) (h : zeroNumericStats st) :
    zeroNumericStats (mgrStep st e) := by
  cases e <;> simpa [mgrStep, getStats, zeroNumericStats] using h

/-- C10: over the bridge's whole lifetime — any sequence of
connection-state changes, ICE-state changes and stats polls — the
numeric fields of the stats snapshot (both bitrates, jitter, packet
loss) stay 0, and a `getStats` call changes only `connectionState`,
`iceConnectionState` and `lastUpdated` (it is a total function, so it
never throws). -/
theorem C10_stats_numeric_zero (t0 now : String) (evs : List MgrEvent) (st : MgrState) :
    zeroNumericStats (mgrRun t0 evs) ∧
    (getStats st now).1.bitrate = st.stats.bitrate ∧
    (getStats st now).1.jitter = st.stats.jitter ∧
    (getStats st now).1.packetLoss = st.stats.packetLoss ∧
    (getStats st now).1.connectionState = st.pcConnectionState ∧
    (getStats st now).1.iceConnectionState = st.pcIceConnectionState ∧
    (getStats st now).1.lastUpdated = now := by
  refine ⟨?_, rfl, rfl, rfl, rfl, rfl, rfl⟩
  have main : ∀ (l : List MgrEvent) (s : MgrState),
      zeroNumericStats s → zeroNumericStats (l.foldl mgrStep s) := by
    intro l
    induction l with
    | nil => exact fun s hs => hs
    | cons e t ih => exact fun s hs => ih _ (mgrStep_zero s e hs)
  exact main evs (initialMgrState t0) (by simp [zeroNumericStats, initialMgrState, initialStats])

end TalkToCat
